import Mathlib

/-!
Shallow embedding of the SpacetimeDB multiplayer server module
(`src/server/src/lib.rs`) for the spec-vs-code verification below.

Modelling decisions:
- `Identity` and `Timestamp` are `Nat` (both are opaque in the claims).
- `f32` coordinates become `Rat`; no claim depends on float rounding.
- The three durable tables `room`, `player`, `logged_out_player` are lists
  of rows; inserts append, point updates map over the list replacing the
  row with the matching primary key, deletes filter it out.  The static
  `game_tile` and `game_tick_schedule` tables are written only by `init`
  and read by nobody the claims mention, so they are not carried in the
  state.
- Each reducer is translated statement by statement from the Rust body
  into a state-passing function.  A reducer that returns `Err` aborts its
  transaction in SpacetimeDB, so the public operation is the raw body
  wrapped in `rollback`, which restores the pre-call state on error.
-/

structure Vec3 where
  x : Rat
  y : Rat
  z : Rat
deriving DecidableEq

structure InputState where
  forward : Bool
  backward : Bool
  left : Bool
  right : Bool
  sprint : Bool
  jump : Bool
  attack : Bool
  cast_spell : Bool
  sequence : Nat
deriving DecidableEq

abbrev Identity := Nat

abbrev Timestamp := Nat

structure Room where
  name : String
  password : Option String
  max_players : Nat
  current_player_count : Nat
  created_at : Timestamp
  owner_identity : Identity
deriving DecidableEq

structure PlayerData where
  identity : Identity
  username : String
  character_class : String
  position : Vec3
  rotation : Vec3
  current_animation : String
  is_moving : Bool
  is_running : Bool
  is_attacking : Bool
  is_casting : Bool
  last_input_seq : Nat
  input : InputState
  color : String
  has_voted : Bool
  current_vote : String
  room_name : String
deriving DecidableEq

structure LoggedOutPlayerData where
  identity : Identity
  username : String
  character_class : String
  position : Vec3
  rotation : Vec3
  last_seen : Timestamp
deriving DecidableEq

/-- The committed database state: the three durable tables of lib.rs. -/
structure State where
  room : List Room
  player : List PlayerData
  logged_out_player : List LoggedOutPlayerData
deriving DecidableEq

/-- `ctx.db.room().name().find(name)` -/
def findRoom (s : State) (name : String) : Option Room :=
  s.room.find? (fun r => r.name == name)

/-- `ctx.db.room().insert(r)` -/
def insertRoom (s : State) (r : Room) : State :=
  { s with room := s.room ++ [r] }

/-- `ctx.db.room().name().update(r)` -/
def updateRoom (s : State) (r : Room) : State :=
  { s with room := s.room.map (fun x => if x.name == r.name then r else x) }

/-- `ctx.db.room().name().delete(name)` -/
def deleteRoom (s : State) (name : String) : State :=
  { s with room := s.room.filter (fun x => x.name != name) }

/-- `ctx.db.player().identity().find(id)` -/
def findPlayer (s : State) (id : Identity) : Option PlayerData :=
  s.player.find? (fun p => p.identity == id)

/-- `ctx.db.player().insert(p)` -/
def insertPlayer (s : State) (p : PlayerData) : State :=
  { s with player := s.player ++ [p] }

/-- `ctx.db.player().identity().update(p)` -/
def updatePlayer (s : State) (p : PlayerData) : State :=
  { s with player := s.player.map (fun x => if x.identity == p.identity then p else x) }

/-- `ctx.db.player().identity().delete(id)` -/
def deletePlayer (s : State) (id : Identity) : State :=
  { s with player := s.player.filter (fun x => x.identity != id) }

/-- `ctx.db.logged_out_player().identity().find(id)` -/
def findLoggedOut (s : State) (id : Identity) : Option LoggedOutPlayerData :=
  s.logged_out_player.find? (fun p => p.identity == id)

/-- `ctx.db.logged_out_player().insert(p)` -/
def insertLoggedOut (s : State) (p : LoggedOutPlayerData) : State :=
  { s with logged_out_player := s.logged_out_player ++ [p] }

/-- `ctx.db.logged_out_player().identity().update(p)` -/
def updateLoggedOut (s : State) (p : LoggedOutPlayerData) : State :=
  { s with logged_out_player :=
      s.logged_out_player.map (fun x => if x.identity == p.identity then p else x) }

/-- `ctx.db.logged_out_player().identity().delete(id)` -/
def deleteLoggedOut (s : State) (id : Identity) : State :=
  { s with logged_out_player := s.logged_out_player.filter (fun x => x.identity != id) }

/-- SpacetimeDB reducer semantics: a reducer that returns `Err` has its whole
transaction rolled back, so the committed state is the pre-call state. -/
def rollback (s : State) : Except String Unit × State → Except String Unit × State
  | (Except.error e, _) => (Except.error e, s)
  | (Except.ok u, s1) => (Except.ok u, s1)

/-- Modelled from the spec: `MAX_PLAYERS_PER_ROOM` lives in `common.rs`, which
is not under src/; the spec only calls it the configured default room
capacity, so its concrete value is a free choice here.  No claim depends on
the value, only on comparisons against `Room.max_players`. -/
def MAX_PLAYERS_PER_ROOM : Nat := 10

def colors : List String :=
  ["cyan", "magenta", "yellow", "lightgreen", "white", "orange"]

/-- `initialize_player` (lib.rs lines 223-260): deterministic spawn policy
from the current active player count, default input, idle animation. -/
def initialize_player (s : State) (identity : Identity)
    (username : String) (character_class : String) (room_name : String) : PlayerData :=
  let player_count := s.player.length
  let assigned_color := colors.getD (player_count % colors.length) ""
  let spawn_position : Vec3 :=
    { x := (player_count : Rat) * 5 - 5 / 2, y := 1, z := 0 }
  let default_input : InputState :=
    { forward := false, backward := false, left := false, right := false
      sprint := false, jump := false, attack := false, cast_spell := false
      sequence := 0 }
  { identity := identity
    username := username
    character_class := character_class
    position := spawn_position
    rotation := { x := 0, y := 0, z := 0 }
    current_animation := "idle"
    is_moving := false
    is_running := false
    is_attacking := false
    is_casting := false
    last_input_seq := 0
    input := default_input
    color := assigned_color
    room_name := room_name
    current_vote := ""
    has_voted := false }

/-- `identity_disconnected` (lib.rs lines 181-219). -/
def identity_disconnected (s : State) (sender : Identity) (now : Timestamp) : State :=
  match findPlayer s sender with
  | some player =>
    let s1 :=
      match findRoom s player.room_name with
      | some room =>
        let room1 := { room with current_player_count := room.current_player_count - 1 }
        let s2 := updateRoom s room1
        if room1.current_player_count == 0 && room1.owner_identity != sender then
          deleteRoom s2 room1.name
        else s2
      | none => s
    let s3 := insertLoggedOut s1
      { identity := player.identity
        username := player.username
        character_class := player.character_class
        position := player.position
        rotation := player.rotation
        last_seen := now }
    deletePlayer s3 sender
  | none =>
    match findLoggedOut s sender with
    | some lp => updateLoggedOut s { lp with last_seen := now }
    | none => s

/-- `create_room` body (lib.rs lines 262-281). -/
def create_room_body (s : State) (sender : Identity) (now : Timestamp)
    (room_name : String) : Except String Unit × State :=
  if (findRoom s room_name).isSome then
    (Except.error ("Room \x27" ++ room_name ++ "\x27 already exists"), s)
  else
    (Except.ok (), insertRoom s
      { name := room_name
        password := none
        max_players := MAX_PLAYERS_PER_ROOM
        current_player_count := 0
        created_at := now
        owner_identity := sender })

def create_room (s : State) (sender : Identity) (now : Timestamp)
    (room_name : String) : Except String Unit × State :=
  rollback s (create_room_body s sender now room_name)

/-- `join_room` body (lib.rs lines 283-318).  Note the room counter is
incremented and written back before the caller's registration is checked. -/
def join_room_body (s : State) (sender : Identity)
    (room_name : String) (password : String) : Except String Unit × State :=
  match findRoom s room_name with
  | some room =>
    if (match room.password with
        | some room_password => room_password != password
        | none => false) then
      (Except.error "Incorrect password", s)
    else if room.max_players ≤ room.current_player_count then
      (Except.error "Room is full", s)
    else
      match findPlayer (updateRoom s
          { room with current_player_count := room.current_player_count + 1 }) sender with
      | some player =>
        (Except.ok (), updatePlayer (updateRoom s
            { room with current_player_count := room.current_player_count + 1 })
          { player with room_name := room_name, current_vote := "", has_voted := false })
      | none =>
        (Except.error "Please register before joining a room",
          updateRoom s { room with current_player_count := room.current_player_count + 1 })
  | none =>
    (Except.error ("Room \x27" ++ room_name ++ "\x27 does not exist"), s)

def join_room (s : State) (sender : Identity)
    (room_name : String) (password : String) : Except String Unit × State :=
  rollback s (join_room_body s sender room_name password)

/-- The registration dispatch of `register_player` (lib.rs lines 351-392),
over the state `s1` in which the target room is known to exist: an already
active caller only has its room membership updated (vote state reset); a
logged-out caller is promoted back to active, preserving username, class and
rotation from the logged-out row, which is then deleted; otherwise a fresh
row is created from the supplied arguments. -/
def register_player_core (s1 : State) (sender : Identity)
    (username : String) (character_class : String) (room_name : String) :
    Except String Unit × State :=
  match findPlayer s1 sender with
  | some player =>
    (Except.ok (), updatePlayer s1
      { player with room_name := room_name, current_vote := "", has_voted := false })
  | none =>
    match findLoggedOut s1 sender with
    | some logged_out_player =>
      (Except.ok (), deleteLoggedOut
        (insertPlayer s1
          { initialize_player s1 logged_out_player.identity
              logged_out_player.username logged_out_player.character_class room_name with
            rotation := logged_out_player.rotation })
        sender)
    | none =>
      (Except.ok (), insertPlayer s1
        (initialize_player s1 sender username character_class room_name))

/-- `register_player` body (lib.rs lines 320-395).  The room is created when
absent (with `current_player_count = 0`); the count is never incremented
in any branch of this reducer. -/
def register_player_body (s : State) (sender : Identity) (now : Timestamp)
    (username : String) (character_class : String) (room_name : String) :
    Except String Unit × State :=
  register_player_core
    (if (findRoom s room_name).isSome then s
     else insertRoom s
       { name := room_name
         password := none
         max_players := MAX_PLAYERS_PER_ROOM
         current_player_count := 0
         created_at := now
         owner_identity := sender })
    sender username character_class room_name

def register_player (s : State) (sender : Identity) (now : Timestamp)
    (username : String) (character_class : String) (room_name : String) :
    Except String Unit × State :=
  rollback s (register_player_body s sender now username character_class room_name)

/-- Modelled from the spec: `player_logic::update_input_state`
(player_logic.rs is not under src/).  Per spec section 4.3: a packet with
`input.sequence <= player.last_input_seq` is rejected as a no-op; otherwise
the movement/action flags are taken from the input, `is_moving`/`is_running`
are recomputed from flag combinations, rotation and animation are set
directly from the client-reported values, the input snapshot is stored and
`last_input_seq` becomes `input.sequence`. -/
def update_input_state (player : PlayerData) (input : InputState)
    (client_rot : Vec3) (client_animation : String) : PlayerData :=
  if input.sequence ≤ player.last_input_seq then player
  else
    let moving := input.forward || input.backward || input.left || input.right
    { player with
      input := input
      is_moving := moving
      is_running := moving && input.sprint
      is_attacking := input.attack
      is_casting := input.cast_spell
      rotation := client_rot
      current_animation := client_animation
      last_input_seq := input.sequence }

/-- `update_player_input` (lib.rs lines 397-411): the `_client_pos` argument
is accepted and dropped; only input, rotation and animation reach
`update_input_state`.  Unknown senders are a silent no-op. -/
def update_player_input (s : State) (sender : Identity) (input : InputState)
    (_client_pos : Vec3) (client_rot : Vec3) (client_animation : String) : State :=
  match findPlayer s sender with
  | some player =>
    updatePlayer s (update_input_state player input client_rot client_animation)
  | none => s

/-- Modelled from the spec: `player_logic::update_players_logic`
(player_logic.rs is not under src/).  Per spec section 4.4 the tick advances
each active player's position from its current movement flags with a fixed
delta-time; it touches only mutable per-player fields and no other table. -/
def advance_player (dt : Rat) (p : PlayerData) : PlayerData :=
  if p.is_moving then
    let speed : Rat := if p.is_running then 8 else 4
    let dx := (if p.input.right then speed else 0) - (if p.input.left then speed else 0)
    let dz := (if p.input.forward then speed else 0) - (if p.input.backward then speed else 0)
    { p with position :=
        { x := p.position.x + dx * dt, y := p.position.y, z := p.position.z + dz * dt } }
  else p

/-- `game_tick` (lib.rs lines 413-421) with the spec-modelled player logic,
at the fixed `delta_time = 1.0`. -/
def game_tick (s : State) : State :=
  { s with player := s.player.map (advance_player 1) }

def valid_votes : List String := ["S", "M", "L", "XL"]

/-- `submit_vote` body (lib.rs lines 423-442): the vote token is validated
before the caller is looked up. -/
def submit_vote_body (s : State) (sender : Identity) (vote : String) :
    Except String Unit × State :=
  if !(valid_votes.contains vote) then
    (Except.error "Invalid vote. Must be one of: S, M, L, XL", s)
  else
    match findPlayer s sender with
    | some player =>
      (Except.ok (), updatePlayer s { player with current_vote := vote, has_voted := true })
    | none => (Except.error "Player not found", s)

def submit_vote (s : State) (sender : Identity) (vote : String) :
    Except String Unit × State :=
  rollback s (submit_vote_body s sender vote)

/-- `reset_votes` body (lib.rs lines 444-455): snapshot all identities, then
find-and-update each one, clearing its vote state. -/
def reset_votes_body (s : State) : Except String Unit × State :=
  let ids := s.player.map (fun p => p.identity)
  let s1 := ids.foldl
    (fun acc id =>
      match findPlayer acc id with
      | some player => updatePlayer acc { player with current_vote := "", has_voted := false }
      | none => acc) s
  (Except.ok (), s1)

def reset_votes (s : State) : Except String Unit × State :=
  rollback s (reset_votes_body s)

/-- `configure_room` body (lib.rs lines 457-490). -/
def configure_room_body (s : State) (sender : Identity) (room_name : String)
    (new_password : Option String) (new_max_players : Option Nat) :
    Except String Unit × State :=
  match findRoom s room_name with
  | some room =>
    if room.owner_identity != sender then
      (Except.error "Only the room owner can modify room settings", s)
    else
      let room1 :=
        match new_password with
        | some password =>
          { room with password := if password.isEmpty then none else some password }
        | none => room
      match new_max_players with
      | some max_players =>
        if max_players < room1.current_player_count then
          (Except.error "Cannot set max players lower than current player count", s)
        else
          (Except.ok (), updateRoom s { room1 with max_players := max_players })
      | none => (Except.ok (), updateRoom s room1)
  | none =>
    (Except.error ("Room \x27" ++ room_name ++ "\x27 does not exist"), s)

def configure_room (s : State) (sender : Identity) (room_name : String)
    (new_password : Option String) (new_max_players : Option Nat) :
    Except String Unit × State :=
  rollback s (configure_room_body s sender room_name new_password new_max_players)

/-- `leave_room` body (lib.rs lines 492-518): decrements / possibly deletes
the room, then deletes the caller's Player row.  No `logged_out_player` row
is written. -/
def leave_room_body (s : State) (sender : Identity) : Except String Unit × State :=
  match findPlayer s sender with
  | some player =>
    let room_name := player.room_name
    let s1 :=
      match findRoom s room_name with
      | some room =>
        let room1 := { room with current_player_count := room.current_player_count - 1 }
        let s2 := updateRoom s room1
        if room1.current_player_count == 0 && room1.owner_identity != sender then
          deleteRoom s2 room_name
        else s2
      | none => s
    (Except.ok (), deletePlayer s1 sender)
  | none => (Except.error "Player not found", s)

def leave_room (s : State) (sender : Identity) : Except String Unit × State :=
  rollback s (leave_room_body s sender)

/-- One public operation of the module, with its caller-supplied arguments
and the implicit sender identity / timestamp from the runtime. -/
inductive Op where
  | create_room (sender : Identity) (now : Timestamp) (room_name : String)
  | join_room (sender : Identity) (room_name : String) (password : String)
  | register_player (sender : Identity) (now : Timestamp)
      (username : String) (character_class : String) (room_name : String)
  | update_player_input (sender : Identity) (input : InputState)
      (client_pos : Vec3) (client_rot : Vec3) (client_animation : String)
  | identity_connected (sender : Identity)
  | identity_disconnected (sender : Identity) (now : Timestamp)
  | game_tick
  | submit_vote (sender : Identity) (vote : String)
  | reset_votes (sender : Identity)
  | configure_room (sender : Identity) (room_name : String)
      (new_password : Option String) (new_max_players : Option Nat)
  | leave_room (sender : Identity)
deriving DecidableEq

/-- Run one public operation: the result surfaced to the caller (infallible
reducers report `ok`) together with the committed state. -/
def runOp (op : Op) (s : State) : Except String Unit × State :=
  match op with
  | Op.create_room sender now room_name => create_room s sender now room_name
  | Op.join_room sender room_name password => join_room s sender room_name password
  | Op.register_player sender now username character_class room_name =>
    register_player s sender now username character_class room_name
  | Op.update_player_input sender input client_pos client_rot client_animation =>
    (Except.ok (), update_player_input s sender input client_pos client_rot client_animation)
  | Op.identity_connected _ => (Except.ok (), s)
  | Op.identity_disconnected sender now => (Except.ok (), identity_disconnected s sender now)
  | Op.game_tick => (Except.ok (), game_tick s)
  | Op.submit_vote sender vote => submit_vote s sender vote
  | Op.reset_votes _ => reset_votes s
  | Op.configure_room sender room_name new_password new_max_players =>
    configure_room s sender room_name new_password new_max_players
  | Op.leave_room sender => leave_room s sender

/-- The committed state after one public operation. -/
def stepState (op : Op) (s : State) : State := (runOp op s).2

/-- The empty pristine database (module `init` writes only the tick schedule
and the static tile set, neither of which is carried in `State`). -/
def initialState : State := { room := [], player := [], logged_out_player := [] }

/-- States reachable from the pristine database by any sequence of public
operations. -/
inductive Reachable : State → Prop where
  | init : Reachable initialState
  | step (op : Op) {s : State} : Reachable s → Reachable (stepState op s)

/-! ### Derived predicates the claims quantify over -/

/-- The identities holding an active `player` row. -/
def pids (s : State) : List Nat := s.player.map (fun p => p.identity)

/-- The identities holding a `logged_out_player` row. -/
def lids (s : State) : List Nat := s.logged_out_player.map (fun p => p.identity)

/-- No identity is simultaneously active and logged out. -/
def activeLoggedOutDisjoint (s : State) : Prop := ∀ i ∈ pids s, i ∉ lids s

/-- Every room's stored counter equals the number of active players whose
`room_name` matches it. -/
abbrev roomCountsConsistent (s : State) : Prop :=
  ∀ r ∈ s.room, r.current_player_count =
    (s.player.filter (fun p => p.room_name == r.name)).length

/-- The primary keys of a table are pairwise distinct (the database enforces
this for every `#[primary_key]` column). -/
def distinctKeys {κ : Type} [BEq κ] : List κ → Bool
  | [] => true
  | k :: ks => (!ks.contains k) && distinctKeys ks

/-! ### Concrete sample data for witnesses and counterexamples -/

def input0 : InputState :=
  { forward := false, backward := false, left := false, right := false
    sprint := false, jump := false, attack := false, cast_spell := false
    sequence := 0 }

def vec0 : Vec3 := { x := 0, y := 0, z := 0 }

def samplePlayer : PlayerData :=
  { identity := 0, username := "alice", character_class := "mage"
    position := vec0, rotation := vec0, current_animation := "idle"
    is_moving := false, is_running := false, is_attacking := false, is_casting := false
    last_input_seq := 5, input := input0, color := "cyan"
    has_voted := false, current_vote := "", room_name := "r1" }

def sampleRoom : Room :=
  { name := "r1", password := none, max_players := 10, current_player_count := 1
    created_at := 0, owner_identity := 7 }

def sampleState : State :=
  { room := [sampleRoom], player := [samplePlayer], logged_out_player := [] }

def sampleLoggedOut : LoggedOutPlayerData :=
  { identity := 3, username := "bob", character_class := "rogue"
    position := vec0, rotation := { x := 0, y := 1, z := 0 }, last_seen := 2 }

def sampleState2 : State :=
  { room := [sampleRoom], player := [samplePlayer], logged_out_player := [sampleLoggedOut] }

/-! ### Generic helper lemmas about keyed row lists -/

theorem map_eq_self_of_mem {α : Type} {f : α → α} {l : List α}
    (h : ∀ x ∈ l, f x = x) : l.map f = l := by
  induction l with
  | nil => rfl
  | cons a t ih =>
    simp only [List.map_cons, h a (by simp)]
    rw [ih (fun x hx => h x (by simp [hx]))]

/-- Replacing the row whose key matches a found row rewrites exactly the
first match of a keyed search. -/
theorem find?_key_replace {α κ : Type} [BEq κ] [LawfulBEq κ] {key : α → κ}
    {l : List α} {k : κ} {p : α} (p1 : α)
    (hf : l.find? (fun x => key x == k) = some p) (hkey : key p1 = key p) :
    (l.map (fun x => if key x == key p1 then p1 else x)).find? (fun x => key x == k)
      = some p1 := by
  have hpk : key p = k := by simpa using List.find?_some hf
  induction l with
  | nil => simp at hf
  | cons a t ih =>
    by_cases ha : key a = k
    · rw [List.find?_cons_of_pos _ (by simpa using ha)] at hf
      have hap : a = p := by simpa using hf
      subst hap
      have h1 : (key a == key p1) = true := by simp [hkey]
      have h2 : (key p1 == k) = true := by simp [hkey, hpk]
      simp [h1, h2]
    · rw [List.find?_cons_of_neg _ (by simpa using ha)] at hf
      have h1 : (key a == key p1) = false := by
        rw [hkey, hpk]
        exact beq_eq_false_iff_ne.mpr ha
      have h2 : (key a == k) = false := beq_eq_false_iff_ne.mpr ha
      simp only [List.map_cons, h1, Bool.false_eq_true, if_false]
      rw [List.find?_cons_of_neg _ (by simp [h2])]
      exact ih hf
  
/-- With pairwise-distinct keys, writing the found row back unchanged leaves
the whole table unchanged. -/
theorem map_replace_found_self {α κ : Type} [BEq κ] [LawfulBEq κ] {key : α → κ}
    {l : List α} {k : κ} {p : α}
    (hd : distinctKeys (l.map key) = true)
    (hf : l.find? (fun x => key x == k) = some p) :
    l.map (fun x => if key x == key p then p else x) = l := by
  have hpk : key p = k := by simpa using List.find?_some hf
  induction l with
  | nil => rfl
  | cons a t ih =>
    rw [List.map_cons, distinctKeys, Bool.and_eq_true] at hd
    by_cases ha : key a = k
    · rw [List.find?_cons_of_pos _ (by simpa using ha)] at hf
      have hap : a = p := by simpa using hf
      subst hap
      have hnc : ∀ x ∈ t, key x ≠ key a := by
        intro x hx
        simp at hd
        exact hd.1 x hx
      simp only [List.map_cons, beq_self_eq_true, if_true]
      rw [map_eq_self_of_mem (fun x hx => by simp [beq_eq_false_iff_ne.mpr (hnc x hx)])]
    · rw [List.find?_cons_of_neg _ (by simpa using ha)] at hf
      have h1 : (key a == key p) = false := by
        rw [hpk]
        exact beq_eq_false_iff_ne.mpr ha
      simp only [List.map_cons, h1, Bool.false_eq_true, if_false]
      rw [ih hd.2 hf]

/-- Deleting by key removes every row the keyed search could find. -/
theorem find?_filter_key_ne {α κ : Type} [BEq κ] [LawfulBEq κ] (key : α → κ)
    (l : List α) (k : κ) :
    (l.filter (fun x => key x != k)).find? (fun x => key x == k) = none := by
  rw [List.find?_eq_none]
  intro x hx
  have := (List.mem_filter.mp hx).2
  simpa using this

/-! ### Effect of each table write on the identity columns -/

theorem pids_updatePlayer (s : State) (p : PlayerData) :
    pids (updatePlayer s p) = pids s := by
  unfold pids updatePlayer
  rw [List.map_map]
  congr 1
  funext x
  by_cases h : x.identity = p.identity
  · simp [Function.comp, h]
  · simp [Function.comp, h]

theorem lids_updateLoggedOut (s : State) (q : LoggedOutPlayerData) :
    lids (updateLoggedOut s q) = lids s := by
  unfold lids updateLoggedOut
  rw [List.map_map]
  congr 1
  funext x
  by_cases h : x.identity = q.identity
  · simp [Function.comp, h]
  · simp [Function.comp, h]

theorem advance_player_identity (dt : Rat) (p : PlayerData) :
    (advance_player dt p).identity = p.identity := by
  unfold advance_player
  split <;> rfl

theorem pids_game_tick (s : State) : pids (game_tick s) = pids s := by
  unfold pids game_tick
  rw [List.map_map]
  congr 1
  funext x
  simp [Function.comp, advance_player_identity]

/-! ### Preservation of the active/logged-out disjointness -/

theorem disjoint_of_same (s1 s : State) (hp : pids s1 = pids s) (hl : lids s1 = lids s)
    (h : activeLoggedOutDisjoint s) : activeLoggedOutDisjoint s1 := by
  intro i hi
  rw [hl]
  exact h i (hp ▸ hi)

theorem disjoint_updatePlayer (s : State) (p : PlayerData)
    (h : activeLoggedOutDisjoint s) : activeLoggedOutDisjoint (updatePlayer s p) :=
  disjoint_of_same _ _ (pids_updatePlayer s p) rfl h

theorem disjoint_updateLoggedOut (s : State) (q : LoggedOutPlayerData)
    (h : activeLoggedOutDisjoint s) : activeLoggedOutDisjoint (updateLoggedOut s q) :=
  disjoint_of_same (updateLoggedOut s q) s rfl (lids_updateLoggedOut s q) h

theorem disjoint_game_tick (s : State)
    (h : activeLoggedOutDisjoint s) : activeLoggedOutDisjoint (game_tick s) :=
  disjoint_of_same _ _ (pids_game_tick s) rfl h

theorem disjoint_deletePlayer (s : State) (k : Nat)
    (h : activeLoggedOutDisjoint s) : activeLoggedOutDisjoint (deletePlayer s k) := by
  intro i hi
  have hmem : i ∈ pids s := by
    simp only [pids, deletePlayer, List.mem_map] at hi ⊢
    obtain ⟨x, hx, rfl⟩ := hi
    exact ⟨x, (List.mem_filter.mp hx).1, rfl⟩
  exact h i hmem

theorem not_mem_lids_of_find_none {s : State} {k : Nat}
    (h : findLoggedOut s k = none) : k ∉ lids s := by
  intro hk
  rw [findLoggedOut, List.find?_eq_none] at h
  simp only [lids, List.mem_map] at hk
  obtain ⟨q, hq, hqk⟩ := hk
  exact h q hq (by simp [hqk])

theorem identity_of_findPlayer {s : State} {k : Nat} {p : PlayerData}
    (h : findPlayer s k = some p) : p.identity = k := by
  simpa using List.find?_some h

theorem identity_of_findLoggedOut {s : State} {k : Nat} {q : LoggedOutPlayerData}
    (h : findLoggedOut s k = some q) : q.identity = k := by
  simpa using List.find?_some h

theorem disjoint_insertPlayer_fresh (s : State) (p : PlayerData)
    (hl : findLoggedOut s p.identity = none)
    (h : activeLoggedOutDisjoint s) : activeLoggedOutDisjoint (insertPlayer s p) := by
  intro i hi
  have hi2 : i ∈ pids s ∨ i = p.identity := by
    simp only [pids, insertPlayer, List.map_append, List.mem_append, List.map_cons,
      List.map_nil, List.mem_singleton] at hi
    simpa [pids] using hi
  rcases hi2 with hi2 | rfl
  · exact h i hi2
  · exact not_mem_lids_of_find_none hl

theorem disjoint_rejoin (s : State) (p : PlayerData)
    (h : activeLoggedOutDisjoint s) :
    activeLoggedOutDisjoint (deleteLoggedOut (insertPlayer s p) p.identity) := by
  intro i hi hmem
  have hm : i ∈ lids s ∧ i ≠ p.identity := by
    simp only [lids, deleteLoggedOut, insertPlayer, List.mem_map] at hmem
    obtain ⟨q, hq, rfl⟩ := hmem
    have hq2 := List.mem_filter.mp hq
    exact ⟨List.mem_map_of_mem _ hq2.1, by simpa using hq2.2⟩
  have hi2 : i ∈ pids s ∨ i = p.identity := by
    simp only [pids, deleteLoggedOut, insertPlayer, List.map_append, List.mem_append,
      List.map_cons, List.map_nil, List.mem_singleton] at hi
    simpa [pids] using hi
  rcases hi2 with hi2 | rfl
  · exact h i hi2 hm.1
  · exact hm.2 rfl

theorem disjoint_disconnect_core (s : State) (row : LoggedOutPlayerData)
    (h : activeLoggedOutDisjoint s) :
    activeLoggedOutDisjoint (deletePlayer (insertLoggedOut s row) row.identity) := by
  intro i hi hmem
  have hi2 : i ∈ pids s ∧ i ≠ row.identity := by
    simp only [pids, deletePlayer, insertLoggedOut, List.mem_map] at hi ⊢
    obtain ⟨x, hx, rfl⟩ := hi
    have hx2 := List.mem_filter.mp hx
    exact ⟨⟨x, hx2.1, rfl⟩, by simpa using hx2.2⟩
  have hm2 : i ∈ lids s ∨ i = row.identity := by
    simp only [lids, deletePlayer, insertLoggedOut, List.map_append, List.mem_append,
      List.map_cons, List.map_nil, List.mem_singleton] at hmem
    simpa [lids] using hmem
  rcases hm2 with hm2 | rfl
  · exact h i hi2.1 hm2
  · exact hi2.2 rfl

theorem disjoint_rollback (s : State) (m : Except String Unit × State)
    (h : activeLoggedOutDisjoint s) (h2 : activeLoggedOutDisjoint m.2) :
    activeLoggedOutDisjoint (rollback s m).2 := by
  rcases m with ⟨r, s1⟩
  cases r with
  | error e => exact h
  | ok u => exact h2

theorem disjoint_reset_fold (ids : List Nat) (s : State)
    (h : activeLoggedOutDisjoint s) :
    activeLoggedOutDisjoint (ids.foldl (fun acc id =>
      match findPlayer acc id with
      | some player => updatePlayer acc { player with current_vote := "", has_voted := false }
      | none => acc) s) := by
  induction ids generalizing s with
  | nil => exact h
  | cons a t ih =>
    rw [List.foldl_cons]
    apply ih
    cases hf : findPlayer s a with
    | some player => exact disjoint_updatePlayer _ _ h
    | none => exact h

theorem disjoint_register_core (s1 : State) (sender : Identity)
    (username character_class room_name : String)
    (h1 : activeLoggedOutDisjoint s1) :
    activeLoggedOutDisjoint
      (register_player_core s1 sender username character_class room_name).2 := by
  unfold register_player_core
  cases hfp : findPlayer s1 sender with
  | some player => exact disjoint_updatePlayer _ _ h1
  | none =>
    cases hlo : findLoggedOut s1 sender with
    | some lp =>
      have hid := identity_of_findLoggedOut hlo
      rw [← hid]
      exact disjoint_rejoin _ _ h1
    | none =>
      exact disjoint_insertPlayer_fresh _ _ hlo h1

theorem disjoint_roomwrite (s1 s : State) (hp : s1.player = s.player)
    (hl : s1.logged_out_player = s.logged_out_player)
    (h : activeLoggedOutDisjoint s) : activeLoggedOutDisjoint s1 :=
  disjoint_of_same s1 s (by unfold pids; rw [hp]) (by unfold lids; rw [hl]) h

/-- Every public operation preserves the active/logged-out disjointness. -/
theorem disjoint_stepState (op : Op) (s : State)
    (h : activeLoggedOutDisjoint s) : activeLoggedOutDisjoint (stepState op s) := by
  cases op with
  | create_room sender now room_name =>
    simp only [stepState, runOp]
    unfold create_room
    apply disjoint_rollback _ _ h
    unfold create_room_body
    split
    · exact h
    · exact disjoint_roomwrite _ s rfl rfl h
  | join_room sender room_name password =>
    simp only [stepState, runOp]
    unfold join_room
    apply disjoint_rollback _ _ h
    unfold join_room_body
    split
    · split
      · exact h
      · split
        · exact h
        · split
          · exact disjoint_updatePlayer _ _ (disjoint_roomwrite _ s rfl rfl h)
          · exact disjoint_roomwrite _ s rfl rfl h
    · exact h
  | register_player sender now username character_class room_name =>
    simp only [stepState, runOp]
    unfold register_player
    apply disjoint_rollback _ _ h
    unfold register_player_body
    apply disjoint_register_core
    split
    · exact h
    · exact disjoint_roomwrite _ s rfl rfl h
  | update_player_input sender input client_pos client_rot client_animation =>
    simp only [stepState, runOp]
    unfold update_player_input
    split
    · exact disjoint_updatePlayer _ _ h
    · exact h
  | identity_connected sender =>
    exact h
  | identity_disconnected sender now =>
    simp only [stepState, runOp]
    unfold identity_disconnected
    split
    · rename_i player hfp
      have hpid := identity_of_findPlayer hfp
      rw [← hpid]
      try dsimp only
      split
      · try dsimp only
        split
        · exact disjoint_disconnect_core _ _ (disjoint_roomwrite _ s rfl rfl h)
        · exact disjoint_disconnect_core _ _ (disjoint_roomwrite _ s rfl rfl h)
      · exact disjoint_disconnect_core _ _ h
    · split
      · exact disjoint_updateLoggedOut _ _ h
      · exact h
  | game_tick =>
    exact disjoint_game_tick _ h
  | submit_vote sender vote =>
    simp only [stepState, runOp]
    unfold submit_vote
    apply disjoint_rollback _ _ h
    unfold submit_vote_body
    split
    · exact h
    · split
      · exact disjoint_updatePlayer _ _ h
      · exact h
  | reset_votes sender =>
    simp only [stepState, runOp]
    unfold reset_votes
    apply disjoint_rollback _ _ h
    unfold reset_votes_body
    exact disjoint_reset_fold _ _ h
  | configure_room sender room_name new_password new_max_players =>
    simp only [stepState, runOp]
    unfold configure_room
    apply disjoint_rollback _ _ h
    unfold configure_room_body
    split
    · split
      · exact h
      · try dsimp only
        split
        · split
          · exact h
          · exact disjoint_roomwrite _ s rfl rfl h
        · exact disjoint_roomwrite _ s rfl rfl h
    · exact h
  | leave_room sender =>
    simp only [stepState, runOp]
    unfold leave_room
    apply disjoint_rollback _ _ h
    unfold leave_room_body
    split
    · try dsimp only
      split
      · try dsimp only
        split
        · exact disjoint_deletePlayer _ _ (disjoint_roomwrite _ s rfl rfl h)
        · exact disjoint_deletePlayer _ _ (disjoint_roomwrite _ s rfl rfl h)
      · exact disjoint_deletePlayer _ _ h
    · exact h

/-! ### The claims -/

/-- C1: the spec's invariant `current_player_count == |{p : Player.room_name
== Room.name}|` fails on the code.  From the pristine state, one
`register_player` call reaches a committed state whose room "r1" stores
`current_player_count = 0` while exactly one active player row has
`room_name = "r1"`: `register_player` creates the room with count 0 and
inserts the player without ever incrementing the counter. -/
theorem register_player_breaks_room_count :
    Reachable (stepState (Op.register_player 0 0 "u" "c" "r1") initialState)
    ∧ ¬ roomCountsConsistent (stepState (Op.register_player 0 0 "u" "c" "r1") initialState)
    ∧ (findRoom (stepState (Op.register_player 0 0 "u" "c" "r1") initialState) "r1").map
        (fun r => r.current_player_count) = some 0
    ∧ ((stepState (Op.register_player 0 0 "u" "c" "r1") initialState).player.filter
        (fun p => p.room_name == "r1")).length = 1 :=
  ⟨Reachable.step _ Reachable.init, by decide, by decide, by decide⟩

/-- C2: in every committed state reachable by any sequence of the public
operations, no identity has both an active `player` row and a
`logged_out_player` row. -/
theorem no_identity_active_and_logged_out (s : State) (h : Reachable s) :
    activeLoggedOutDisjoint s := by
  induction h with
  | init =>
    intro i hi
    simp [pids, initialState] at hi
  | step op hs ih => exact disjoint_stepState _ _ ih

/-- C2 witness: the theorem applied to the concrete reachable state obtained
by registering identity 0 and then disconnecting it. -/
theorem no_identity_active_and_logged_out_witness :
    activeLoggedOutDisjoint (stepState (Op.identity_disconnected 0 3)
      (stepState (Op.register_player 0 0 "u" "c" "r1") initialState)) :=
  no_identity_active_and_logged_out _
    (Reachable.step _ (Reachable.step _ Reachable.init))

theorem findPlayer_deletePlayer (s : State) (k : Nat) :
    findPlayer (deletePlayer s k) k = none :=
  find?_filter_key_ne (fun p : PlayerData => p.identity) s.player k

theorem findLoggedOut_deleteLoggedOut (s : State) (k : Nat) :
    findLoggedOut (deleteLoggedOut s k) k = none :=
  find?_filter_key_ne (fun p : LoggedOutPlayerData => p.identity) s.logged_out_player k

/-- C3 counterexample: in a reachable state where identity 0 has an active
Player row, leave_room succeeds yet identity 0 is NOT in the
logged_out_player table afterwards — no conversion to DisconnectedPlayer
happens. -/
theorem leave_room_conversion_counterexample :
    (findPlayer (stepState (Op.register_player 0 0 "u" "c" "r1") initialState) 0).isSome = true
    ∧ (leave_room (stepState (Op.register_player 0 0 "u" "c" "r1") initialState) 0).1 =
        Except.ok ()
    ∧ findLoggedOut
        (leave_room (stepState (Op.register_player 0 0 "u" "c" "r1") initialState) 0).2 0 =
        none :=
  ⟨rfl, rfl, rfl⟩

/-- C3 (amended): for every caller with an active Player row, leave_room
succeeds and removes that row, but creates no DisconnectedPlayer record —
the logged_out_player table is left exactly as it was; when the caller has
no active Player row, leave_room fails with "Player not found" and changes
nothing. -/
theorem leave_room_spec (s : State) (sender : Identity) :
    (∀ p, findPlayer s sender = some p →
      (leave_room s sender).1 = Except.ok ()
      ∧ findPlayer (leave_room s sender).2 sender = none
      ∧ (leave_room s sender).2.logged_out_player = s.logged_out_player)
    ∧ (findPlayer s sender = none →
      leave_room s sender = (Except.error "Player not found", s)) := by
  constructor
  · intro p hp
    unfold leave_room leave_room_body
    simp only [hp, rollback]
    refine ⟨by trivial, findPlayer_deletePlayer _ _, ?_⟩
    split
    · split
      · rfl
      · rfl
    · rfl
  · intro hp
    unfold leave_room leave_room_body
    simp only [hp, rollback]

/-- C3 witness: the amended theorem applied to the sample state in which
identity 0 is active in room "r1". -/
theorem leave_room_spec_witness :
    (leave_room sampleState 0).1 = Except.ok ()
    ∧ findPlayer (leave_room sampleState 0).2 0 = none
    ∧ (leave_room sampleState 0).2.logged_out_player = sampleState.logged_out_player :=
  (leave_room_spec sampleState 0).1 samplePlayer (by decide)

theorem rollback_error_eq (s : State) (m : Except String Unit × State) (e : String)
    (h : (rollback s m).1 = Except.error e) : (rollback s m).2 = s := by
  rcases m with ⟨r, s1⟩
  cases r with
  | error e2 => rfl
  | ok u => simp [rollback] at h

/-- C4: every public operation that surfaces an error commits no state
change — SpacetimeDB rolls the failed transaction back, so the committed
state equals the starting state.  In particular join_room failing with the
not-registered error leaves the target room's current_player_count
unchanged even though the body increments it before the registration
check. -/
theorem failed_op_leaves_state_unchanged (op : Op) (s : State) (e : String)
    (h : (runOp op s).1 = Except.error e) : (runOp op s).2 = s := by
  cases op with
  | create_room sender now room_name => exact rollback_error_eq _ _ _ h
  | join_room sender room_name password => exact rollback_error_eq _ _ _ h
  | register_player sender now username character_class room_name =>
    exact rollback_error_eq _ _ _ h
  | update_player_input sender input client_pos client_rot client_animation =>
    simp [runOp] at h
  | identity_connected sender => simp [runOp] at h
  | identity_disconnected sender now => simp [runOp] at h
  | game_tick => simp [runOp] at h
  | submit_vote sender vote => exact rollback_error_eq _ _ _ h
  | reset_votes sender => exact rollback_error_eq _ _ _ h
  | configure_room sender room_name new_password new_max_players =>
    exact rollback_error_eq _ _ _ h
  | leave_room sender => exact rollback_error_eq _ _ _ h

/-- C4 witness: joining a non-existent room from the pristine state errors
and commits nothing. -/
theorem failed_op_leaves_state_unchanged_witness :
    (runOp (Op.join_room 0 "nowhere" "") initialState).1 =
      Except.error ("Room \x27nowhere\x27 does not exist")
    ∧ (runOp (Op.join_room 0 "nowhere" "") initialState).2 = initialState :=
  ⟨rfl, failed_op_leaves_state_unchanged (Op.join_room 0 "nowhere" "") initialState
    ("Room \x27nowhere\x27 does not exist") rfl⟩

theorem findPlayer_updateRoom (s : State) (r : Room) (id : Nat) :
    findPlayer (updateRoom s r) id = findPlayer s id := rfl

theorem findRoom_updatePlayer (s : State) (p : PlayerData) (name : String) :
    findRoom (updatePlayer s p) name = findRoom s name := rfl

theorem findRoom_updateRoom_found {s : State} {name : String} {r : Room} (r1 : Room)
    (hf : findRoom s name = some r) (hn : r1.name = r.name) :
    findRoom (updateRoom s r1) name = some r1 := by
  unfold findRoom updateRoom
  exact find?_key_replace r1 hf hn

theorem findPlayer_updatePlayer_found {s : State} {id : Nat} {p : PlayerData} (p1 : PlayerData)
    (hf : findPlayer s id = some p) (hi : p1.identity = p.identity) :
    findPlayer (updatePlayer s p1) id = some p1 := by
  unfold findPlayer updatePlayer
  exact find?_key_replace p1 hf hi

/-- C5: join_room's error ladder is checked in exactly this order: the
room-absent error iff no room of that name exists; else the password error
iff a password is set and differs from the supplied value; else the full
error iff `current_player_count >= max_players`; else the not-registered
error iff the caller has no active Player row; otherwise the call succeeds,
the room's count is incremented by one and the caller's Player row is
pointed at the room (with its vote state reset). -/
theorem join_room_spec (s : State) (sender : Identity) (room_name password : String) :
    (findRoom s room_name = none →
      join_room s sender room_name password =
        (Except.error ("Room \x27" ++ room_name ++ "\x27 does not exist"), s))
    ∧ (∀ room, findRoom s room_name = some room →
        (∀ rp, room.password = some rp → rp ≠ password →
          join_room s sender room_name password = (Except.error "Incorrect password", s))
        ∧ ((room.password = none ∨ room.password = some password) →
          (room.max_players ≤ room.current_player_count →
            join_room s sender room_name password = (Except.error "Room is full", s))
          ∧ (room.current_player_count < room.max_players →
            (findPlayer s sender = none →
              join_room s sender room_name password =
                (Except.error "Please register before joining a room", s))
            ∧ (∀ player, findPlayer s sender = some player →
              (join_room s sender room_name password).1 = Except.ok ()
              ∧ findRoom (join_room s sender room_name password).2 room_name =
                  some { room with current_player_count := room.current_player_count + 1 }
              ∧ findPlayer (join_room s sender room_name password).2 sender =
                  some { player with
                         room_name := room_name
                         current_vote := ""
                         has_voted := false })))) := by
  refine ⟨?_, ?_⟩
  · intro h
    unfold join_room join_room_body
    rw [h]
    rfl
  · intro room hroom
    refine ⟨?_, ?_⟩
    · intro rp hrp hne
      unfold join_room join_room_body
      simp only [hroom, hrp]
      have hcond : (rp != password) = true := by simpa using hne
      rw [if_pos hcond]
      rfl
    · intro hpw
      have hcondf : ¬ ((match room.password with
          | some room_password => room_password != password
          | none => false) = true) := by
        rcases hpw with h1 | h1 <;> simp [h1]
      refine ⟨?_, ?_⟩
      · intro hfull
        unfold join_room join_room_body
        simp only [hroom]
        rw [if_neg hcondf, if_pos hfull]
        rfl
      · intro hnotfull
        have hnf : ¬ (room.max_players ≤ room.current_player_count) :=
          Nat.not_le.mpr hnotfull
        refine ⟨?_, ?_⟩
        · intro hnp
          unfold join_room join_room_body
          simp only [hroom]
          rw [if_neg hcondf, if_neg hnf, findPlayer_updateRoom, hnp]
          rfl
        · intro player hp
          unfold join_room join_room_body
          simp only [hroom]
          rw [if_neg hcondf, if_neg hnf, findPlayer_updateRoom, hp]
          simp only [rollback]
          refine ⟨by trivial, ?_, ?_⟩
          · rw [findRoom_updatePlayer]
            exact findRoom_updateRoom_found _ hroom rfl
          · exact findPlayer_updatePlayer_found _ hp rfl

/-- C5 witness: the success case instantiated on the sample state — identity
0 is registered in room "r1" (count 1, capacity 10, no password), so joining
"r1" with the empty password succeeds, bumps the count to 2 and keeps the
caller's row in "r1". -/
theorem join_room_spec_witness :
    (join_room sampleState 0 "r1" "").1 = Except.ok ()
    ∧ findRoom (join_room sampleState 0 "r1" "").2 "r1" =
        some { sampleRoom with current_player_count := 2 }
    ∧ findPlayer (join_room sampleState 0 "r1" "").2 0 =
        some { samplePlayer with room_name := "r1", current_vote := "", has_voted := false } :=
  ((((join_room_spec sampleState 0 "r1" "").2 sampleRoom (by decide)).2
    (Or.inl (by decide))).2 (by decide)).2 samplePlayer (by decide)

/-- C6: a stale packet — `input.sequence <= last_input_seq` on the caller's
active row — makes update_player_input a complete no-op: the committed state
is unchanged.  (The primary-key column of the player table is unique, which
the database enforces; it is assumed here as `distinctKeys`.) -/
theorem stale_input_is_noop (s : State) (sender : Identity) (p : PlayerData)
    (input : InputState) (client_pos client_rot : Vec3) (client_animation : String)
    (hkeys : distinctKeys (s.player.map (fun x => x.identity)) = true)
    (hf : findPlayer s sender = some p)
    (hseq : input.sequence ≤ p.last_input_seq) :
    update_player_input s sender input client_pos client_rot client_animation = s := by
  unfold update_player_input
  rw [hf]
  show updatePlayer s (update_input_state p input client_rot client_animation) = s
  unfold update_input_state
  rw [if_pos hseq]
  show { s with player := s.player.map (fun x => if x.identity == p.identity then p else x) } = s
  rw [map_replace_found_self hkeys hf]

/-- C6 witness: identity 0 has `last_input_seq = 5`; replaying `input0`
(sequence 0) changes nothing. -/
theorem stale_input_is_noop_witness :
    update_player_input sampleState 0 input0 vec0 vec0 "idle" = sampleState :=
  stale_input_is_noop sampleState 0 samplePlayer input0 vec0 vec0 "idle"
    (by decide) (by decide) (by decide)

/-- C7: submit_vote rejects any token outside {"S","M","L","XL"} with the
invalid-vote error and no state change (the token is validated before the
caller is looked up); with a valid token it fails with "Player not found"
when the caller has no active row, and otherwise stores the vote on the
caller's row and sets has_voted. -/
theorem submit_vote_spec (s : State) (sender : Identity) (vote : String) :
    (valid_votes.contains vote = false →
      submit_vote s sender vote =
        (Except.error "Invalid vote. Must be one of: S, M, L, XL", s))
    ∧ (valid_votes.contains vote = true → findPlayer s sender = none →
      submit_vote s sender vote = (Except.error "Player not found", s))
    ∧ (∀ p, valid_votes.contains vote = true → findPlayer s sender = some p →
      (submit_vote s sender vote).1 = Except.ok ()
      ∧ findPlayer (submit_vote s sender vote).2 sender =
          some { p with current_vote := vote, has_voted := true }) := by
  refine ⟨?_, ?_, ?_⟩
  · intro hv
    unfold submit_vote submit_vote_body
    rw [hv]
    rfl
  · intro hv hnp
    unfold submit_vote submit_vote_body
    rw [hv, hnp]
    rfl
  · intro p hv hp
    unfold submit_vote submit_vote_body
    rw [hv, hp]
    exact ⟨rfl, findPlayer_updatePlayer_found _ hp rfl⟩

/-- C7 witness: the success case on the sample state — voting "XL" records
the vote on identity 0's row. -/
theorem submit_vote_spec_witness :
    (submit_vote sampleState 0 "XL").1 = Except.ok ()
    ∧ findPlayer (submit_vote sampleState 0 "XL").2 0 =
        some { samplePlayer with current_vote := "XL", has_voted := true } :=
  (submit_vote_spec sampleState 0 "XL").2.2 samplePlayer (by decide) (by decide)

/-- C8: register_player for an identity holding a logged-out record and no
active row promotes the record back to an active row whose username,
character_class and rotation come from the logged-out record — not from the
supplied arguments — and deletes the logged-out record. -/
theorem register_player_rejoin_preserves (s : State) (sender : Identity) (now : Timestamp)
    (username character_class room_name : String) (lp : LoggedOutPlayerData)
    (hp : findPlayer s sender = none) (hl : findLoggedOut s sender = some lp) :
    ((findPlayer (register_player s sender now username character_class room_name).2
        sender).map (fun q => q.username) = some lp.username)
    ∧ ((findPlayer (register_player s sender now username character_class room_name).2
        sender).map (fun q => q.character_class) = some lp.character_class)
    ∧ ((findPlayer (register_player s sender now username character_class room_name).2
        sender).map (fun q => q.rotation) = some lp.rotation)
    ∧ findLoggedOut (register_player s sender now username character_class room_name).2
        sender = none := by
  have key : ∀ s1 : State, s1.player = s.player →
      s1.logged_out_player = s.logged_out_player →
      ((findPlayer (rollback s
          (register_player_core s1 sender username character_class room_name)).2
          sender).map (fun q => q.username) = some lp.username)
      ∧ ((findPlayer (rollback s
          (register_player_core s1 sender username character_class room_name)).2
          sender).map (fun q => q.character_class) = some lp.character_class)
      ∧ ((findPlayer (rollback s
          (register_player_core s1 sender username character_class room_name)).2
          sender).map (fun q => q.rotation) = some lp.rotation)
      ∧ findLoggedOut (rollback s
          (register_player_core s1 sender username character_class room_name)).2
          sender = none := by
    intro s1 h1 h2
    have hp1 : findPlayer s1 sender = none := by
      unfold findPlayer
      rw [h1]
      exact hp
    have hl1 : findLoggedOut s1 sender = some lp := by
      unfold findLoggedOut
      rw [h2]
      exact hl
    have hid : lp.identity = sender := identity_of_findLoggedOut hl1
    unfold register_player_core
    rw [hp1, hl1]
    have hfind : findPlayer
        (deleteLoggedOut (insertPlayer s1
          { initialize_player s1 lp.identity lp.username lp.character_class room_name with
            rotation := lp.rotation }) sender) sender =
        some { initialize_player s1 lp.identity lp.username lp.character_class room_name with
               rotation := lp.rotation } := by
      show findPlayer (insertPlayer s1
        { initialize_player s1 lp.identity lp.username lp.character_class room_name with
          rotation := lp.rotation }) sender = _
      unfold findPlayer insertPlayer
      rw [List.find?_append]
      have hp1b : s1.player.find? (fun x => x.identity == sender) = none := hp1
      rw [hp1b]
      simp [initialize_player, hid]
    refine ⟨?_, ?_, ?_, ?_⟩
    · rw [show findPlayer (rollback s ((Except.ok (),
        deleteLoggedOut (insertPlayer s1
          { initialize_player s1 lp.identity lp.username lp.character_class room_name with
            rotation := lp.rotation }) sender))).2 sender = _ from hfind]
      simp [initialize_player]
    · rw [show findPlayer (rollback s ((Except.ok (),
        deleteLoggedOut (insertPlayer s1
          { initialize_player s1 lp.identity lp.username lp.character_class room_name with
            rotation := lp.rotation }) sender))).2 sender = _ from hfind]
      simp [initialize_player]
    · rw [show findPlayer (rollback s ((Except.ok (),
        deleteLoggedOut (insertPlayer s1
          { initialize_player s1 lp.identity lp.username lp.character_class room_name with
            rotation := lp.rotation }) sender))).2 sender = _ from hfind]
      simp [initialize_player]
    · exact findLoggedOut_deleteLoggedOut _ _
  unfold register_player register_player_body
  exact key _ (by split <;> rfl) (by split <;> rfl)

/-- C8 witness: identity 3 is logged out as "bob"/"rogue" with a nonzero
rotation; re-registering with different arguments restores those values and
clears the logged-out record. -/
theorem register_player_rejoin_preserves_witness :
    ((findPlayer (register_player sampleState2 3 9 "x" "y" "r2").2 3).map
        (fun q => q.username) = some sampleLoggedOut.username)
    ∧ ((findPlayer (register_player sampleState2 3 9 "x" "y" "r2").2 3).map
        (fun q => q.character_class) = some sampleLoggedOut.character_class)
    ∧ ((findPlayer (register_player sampleState2 3 9 "x" "y" "r2").2 3).map
        (fun q => q.rotation) = some sampleLoggedOut.rotation)
    ∧ findLoggedOut (register_player sampleState2 3 9 "x" "y" "r2").2 3 = none :=
  register_player_rejoin_preserves sampleState2 3 9 "x" "y" "r2" sampleLoggedOut
    (by decide) (by decide)

/-- C9: the client-reported position argument of update_player_input is
dead: two calls that differ only in it produce identical committed states —
lib.rs accepts `_client_pos` and drops it, so Player.position is never
written from the client snapshot. -/
theorem client_position_ignored (s : State) (sender : Identity) (input : InputState)
    (pos1 pos2 client_rot : Vec3) (client_animation : String) :
    update_player_input s sender input pos1 client_rot client_animation =
      update_player_input s sender input pos2 client_rot client_animation := rfl

/-- C10: a successful create_room only appends the new room row — count 0,
no password, default capacity, caller as owner — leaving the player and
logged-out tables and every existing room row exactly as they were; the
caller is not made a member of the new room. -/
theorem create_room_frame (s : State) (sender : Identity) (now : Timestamp)
    (room_name : String) (h : findRoom s room_name = none) :
    create_room s sender now room_name =
      (Except.ok (), { s with room := s.room ++
        [{ name := room_name, password := none, max_players := MAX_PLAYERS_PER_ROOM,
           current_player_count := 0, created_at := now, owner_identity := sender }] }) := by
  unfold create_room create_room_body
  rw [h]
  rfl

/-- C10 witness: creating "arena" from the pristine state appends exactly
the one fresh room row. -/
theorem create_room_frame_witness :
    create_room initialState 5 1 "arena" =
      (Except.ok (), { initialState with room := initialState.room ++
        [{ name := "arena", password := none, max_players := MAX_PLAYERS_PER_ROOM,
           current_player_count := 0, created_at := 1, owner_identity := 5 }] }) :=
  create_room_frame initialState 5 1 "arena" (by decide)
